import Mathlib

/-!
Shallow embedding of the credora-server on-chain credential system
(CredentialRegistry, CredentialNFT, VerificationContract) and of the
off-chain blockchain registration workflow (BlockchainController).
Addresses and token ids are Nat (0 plays the role of address(0)),
timestamps are Nat, strings are Lean strings; Solidity `require` failures
are Except.error carrying the revert message, and a failed call leaves
state unchanged (revert semantics).
-/

namespace Credora

/-- Pointwise update of a map represented as a function. -/
def updMap {α : Type} (f : Nat → α) (k : Nat) (v : α) : Nat → α :=
  fun x => if x = k then v else f x

def exOk {ε α : Type} : Except ε α → Bool
  | .ok _ => true
  | .error _ => false

/-! ## CredentialRegistry (src/unnamed/part_001) -/

/-- The Institution struct of CredentialRegistry. -/
structure Institution where
  name : String
  website : String
  email : String
  walletAddress : Nat
  verified : Bool
  registrationDate : Nat
  credentialsIssued : Nat
  documentHash : String
deriving DecidableEq

/-- The zero value a Solidity mapping returns for an absent key. -/
def Institution.empty : Institution :=
  { name := "", website := "", email := "", walletAddress := 0, verified := false,
    registrationDate := 0, credentialsIssued := 0, documentHash := "" }

/-- Storage of CredentialRegistry: owner (from Ownable), admins,
institutions, authorizedIssuers and the enumeration list issuerList. -/
structure RegistryState where
  owner : Nat
  admins : Nat → Bool
  institutions : Nat → Institution
  authorizedIssuers : Nat → Bool
  issuerList : List Nat

/-- State right after the constructor ran with `deployer` as msg.sender:
Ownable sets owner, the constructor sets admins[msg.sender] = true. -/
def initRegistry (deployer : Nat) : RegistryState :=
  { owner := deployer
    admins := fun a => a == deployer
    institutions := fun _ => Institution.empty
    authorizedIssuers := fun _ => false
    issuerList := [] }

/-- isAdmin / the onlyAdmin modifier predicate: admins[a] || a == owner(). -/
def isAdmin (s : RegistryState) (a : Nat) : Bool :=
  s.admins a || a == s.owner

/-- isAuthorizedIssuer: plain mapping lookup. -/
def isAuthorizedIssuer (s : RegistryState) (a : Nat) : Bool :=
  s.authorizedIssuers a

/-- registerInstitution. `bytes(x).length == 0` is embedded as `x = ""`. -/
def registerInstitution (s : RegistryState) (sender addr : Nat)
    (name website email documentHash : String) (now : Nat) :
    Except String RegistryState :=
  if ¬ isAdmin s sender then .error "Not authorized admin"
  else if addr = 0 then .error "Invalid address"
  else if name = "" then .error "Name cannot be empty"
  else if (s.institutions addr).name ≠ "" then .error "Institution already registered"
  else
    let inst : Institution :=
      { name := name, website := website, email := email, walletAddress := addr,
        verified := false, registrationDate := now, credentialsIssued := 0,
        documentHash := documentHash }
    .ok { s with institutions := updMap s.institutions addr inst }

/-- verifyInstitution. -/
def verifyInstitution (s : RegistryState) (sender addr : Nat) :
    Except String RegistryState :=
  if ¬ isAdmin s sender then .error "Not authorized admin"
  else if (s.institutions addr).name = "" then .error "Institution not registered"
  else if (s.institutions addr).verified then .error "Already verified"
  else
    let inst := { s.institutions addr with verified := true }
    .ok { s with
      institutions := updMap s.institutions addr inst
      authorizedIssuers := updMap s.authorizedIssuers addr true
      issuerList := s.issuerList ++ [addr] }

/-- The swap-with-last-and-pop removal loop of revokeInstitution (acts at
the first index holding `a`; no change if `a` is absent). -/
def removeIssuer (l : List Nat) (a : Nat) : List Nat :=
  match l.findIdx? (· == a) with
  | none => l
  | some i => (l.set i (l.getLastD 0)).dropLast

/-- revokeInstitution. -/
def revokeInstitution (s : RegistryState) (sender addr : Nat) :
    Except String RegistryState :=
  if ¬ isAdmin s sender then .error "Not authorized admin"
  else if ¬ s.authorizedIssuers addr then .error "Institution not authorized"
  else
    let inst := { s.institutions addr with verified := false }
    .ok { s with
      authorizedIssuers := updMap s.authorizedIssuers addr false
      institutions := updMap s.institutions addr inst
      issuerList := removeIssuer s.issuerList addr }

/-- updateInstitutionInfo: admin-only; requires a registered record; the
new name is NOT validated (it may be empty). -/
def updateInstitutionInfo (s : RegistryState) (sender addr : Nat)
    (name website email : String) : Except String RegistryState :=
  if ¬ isAdmin s sender then .error "Not authorized admin"
  else if (s.institutions addr).name = "" then .error "Institution not registered"
  else
    let inst := { s.institutions addr with name := name, website := website, email := email }
    .ok { s with institutions := updMap s.institutions addr inst }

/-- updateInstitutionDocuments. -/
def updateInstitutionDocuments (s : RegistryState) (sender addr : Nat)
    (documentHash : String) : Except String RegistryState :=
  if ¬ isAdmin s sender then .error "Not authorized admin"
  else if (s.institutions addr).name = "" then .error "Institution not registered"
  else
    let inst := { s.institutions addr with documentHash := documentHash }
    .ok { s with institutions := updMap s.institutions addr inst }

/-- addAdmin (onlyOwner). -/
def addAdmin (s : RegistryState) (sender a : Nat) : Except String RegistryState :=
  if sender ≠ s.owner then .error "Ownable: caller is not the owner"
  else .ok { s with admins := updMap s.admins a true }

/-- removeAdmin (onlyOwner). -/
def removeAdmin (s : RegistryState) (sender a : Nat) : Except String RegistryState :=
  if sender ≠ s.owner then .error "Ownable: caller is not the owner"
  else .ok { s with admins := updMap s.admins a false }

/-- incrementCredentialCount: the require inspects the `issuer` argument
only; msg.sender (here `_sender`) is never looked at. -/
def incrementCredentialCount (s : RegistryState) (_sender issuer : Nat) :
    Except String RegistryState :=
  if ¬ s.authorizedIssuers issuer then .error "Not authorized issuer"
  else
    let inst := { s.institutions issuer with
                  credentialsIssued := (s.institutions issuer).credentialsIssued + 1 }
    .ok { s with institutions := updMap s.institutions issuer inst }

/-! ## CredentialNFT (src/contracts/CredentialNFT.sol) -/

/-- The Credential struct of CredentialNFT. -/
structure Credential where
  issuer : Nat
  recipient : Nat
  credentialType : String
  institutionName : String
  issueDate : Nat
  expiryDate : Nat
  ipfsHash : String
  revoked : Bool
deriving DecidableEq

def Credential.empty : Credential :=
  { issuer := 0, recipient := 0, credentialType := "", institutionName := "",
    issueDate := 0, expiryDate := 0, ipfsHash := "", revoked := false }

/-- Storage of CredentialNFT: the token counter, the credentials and
userCredentials mappings, ERC721 ownership (owners t = none exactly when
`_exists(t)` is false) and the token URI storage. ERC721 balance
bookkeeping is omitted: no operation of the contract reads it. -/
structure NFTState where
  tokenIdCounter : Nat
  credentials : Nat → Credential
  userCredentials : Nat → List Nat
  owners : Nat → Option Nat
  tokenURIs : Nat → String

def initNFT : NFTState :=
  { tokenIdCounter := 0
    credentials := fun _ => Credential.empty
    userCredentials := fun _ => []
    owners := fun _ => none
    tokenURIs := fun _ => "" }

/-- issueCredential: onlyAuthorizedIssuer, then assign the next sequential
token id, store the record, append to the recipient's index, `_mint`
(which requires a nonzero recipient and an unused id), `_setTokenURI`,
and call back into the registry to increment the issuer's counter.
The registry call passes msg.sender as the `issuer` argument; the ledger
contract's own address (never inspected by the registry) is rendered 0. -/
def issueCredential (reg : RegistryState) (s : NFTState) (sender recipient : Nat)
    (credentialType institutionName : String) (expiryDate : Nat)
    (ipfsHash tokenMetadataURI : String) (now : Nat) :
    Except String (RegistryState × NFTState × Nat) :=
  if ¬ isAuthorizedIssuer reg sender then .error "Not authorized issuer"
  else
    let tokenId := s.tokenIdCounter
    let cred : Credential :=
      { issuer := sender, recipient := recipient, credentialType := credentialType,
        institutionName := institutionName, issueDate := now, expiryDate := expiryDate,
        ipfsHash := ipfsHash, revoked := false }
    let s1 : NFTState :=
      { s with
        tokenIdCounter := tokenId + 1
        credentials := updMap s.credentials tokenId cred
        userCredentials := updMap s.userCredentials recipient
          (s.userCredentials recipient ++ [tokenId]) }
    if recipient = 0 then .error "ERC721: mint to the zero address"
    else if (s1.owners tokenId).isSome then .error "ERC721: token already minted"
    else
      let s2 : NFTState :=
        { s1 with
          owners := updMap s1.owners tokenId (some recipient)
          tokenURIs := updMap s1.tokenURIs tokenId tokenMetadataURI }
      match incrementCredentialCount reg 0 sender with
      | .error e => .error e
      | .ok reg' => .ok (reg', s2, tokenId)

/-- The loop body of batchIssueCredentials over the zipped parallel
arrays (recipient, type, ipfsHash, tokenURI). -/
def batchLoop (sender : Nat) (institutionName : String) (expiryDate now : Nat) :
    RegistryState → NFTState → List (Nat × String × String × String) →
    Except String (RegistryState × NFTState)
  | reg, s, [] => .ok (reg, s)
  | reg, s, e :: rest =>
    match issueCredential reg s sender e.1 e.2.1 institutionName expiryDate
        e.2.2.1 e.2.2.2 now with
    | .error msg => .error msg
    | .ok (reg', s', _) => batchLoop sender institutionName expiryDate now reg' s' rest

/-- batchIssueCredentials: length requires, then issueCredential per entry;
any failure reverts the whole batch. -/
def batchIssueCredentials (reg : RegistryState) (s : NFTState) (sender : Nat)
    (recipients : List Nat) (credentialTypes : List String)
    (institutionName : String) (expiryDate : Nat)
    (ipfsHashes tokenURIs : List String) (now : Nat) :
    Except String (RegistryState × NFTState) :=
  if ¬ isAuthorizedIssuer reg sender then .error "Not authorized issuer"
  else if recipients.length ≠ credentialTypes.length then .error "Array length mismatch"
  else if recipients.length ≠ ipfsHashes.length then .error "Array length mismatch"
  else if recipients.length ≠ tokenURIs.length then .error "Array length mismatch"
  else batchLoop sender institutionName expiryDate now reg s
    (recipients.zip (credentialTypes.zip (ipfsHashes.zip tokenURIs)))

/-- revokeCredential: only the original issuer of record may revoke. -/
def revokeCredential (s : NFTState) (sender tokenId : Nat) :
    Except String NFTState :=
  if (s.owners tokenId).isNone then .error "Credential does not exist"
  else if (s.credentials tokenId).issuer ≠ sender then .error "Only issuer can revoke"
  else if (s.credentials tokenId).revoked then .error "Already revoked"
  else
    let cred := { s.credentials tokenId with revoked := true }
    .ok { s with credentials := updMap s.credentials tokenId cred }

/-- The tuple verifyCredential returns. -/
structure VerifyOutput where
  isValid : Bool
  issuer : Nat
  recipient : Nat
  credentialType : String
  institutionName : String
  issueDate : Nat
  expired : Bool
  revoked : Bool
deriving DecidableEq

/-- verifyCredential: reverts for an unminted id; otherwise
`hasExpired = expiryDate != 0 && now > expiryDate` (strict comparison) and
`isValid = !revoked && !hasExpired`. -/
def verifyCredential (s : NFTState) (tokenId now : Nat) :
    Except String VerifyOutput :=
  if (s.owners tokenId).isNone then .error "Credential does not exist"
  else
    let cred := s.credentials tokenId
    let hasExpired := cred.expiryDate != 0 && decide (now > cred.expiryDate)
    .ok { isValid := !cred.revoked && !hasExpired, issuer := cred.issuer,
          recipient := cred.recipient, credentialType := cred.credentialType,
          institutionName := cred.institutionName, issueDate := cred.issueDate,
          expired := hasExpired, revoked := cred.revoked }

/-- ERC721 transferFrom as far as CredentialNFT's state is concerned:
ownership moves, the credentials mapping is untouched (approvals are
collapsed to the owner acting for themselves; the approval bookkeeping
never touches credentials either). -/
def transferCredential (s : NFTState) (sender fromAddr toAddr tokenId : Nat) :
    Except String NFTState :=
  if s.owners tokenId ≠ some fromAddr then .error "ERC721: transfer from incorrect owner"
  else if sender ≠ fromAddr then .error "ERC721: caller is not token owner or approved"
  else if toAddr = 0 then .error "ERC721: transfer to the zero address"
  else .ok { s with owners := updMap s.owners tokenId (some toAddr) }

/-! ## VerificationContract (src/contracts/VerificationContract.sol) -/

/-- Verification statistics storage of VerificationContract. -/
structure VerifState where
  verificationCount : Nat → Nat
  verifierCount : Nat → Nat
  totalVerifications : Nat

def initVerif : VerifState :=
  { verificationCount := fun _ => 0, verifierCount := fun _ => 0, totalVerifications := 0 }

/-- The VerificationResult struct (field `exists` is rendered exists_). -/
structure VerificationResult where
  isValid : Bool
  exists_ : Bool
  expired : Bool
  revoked : Bool
  issuer : Nat
  recipient : Nat
  credentialType : String
  institutionName : String
  issueDate : Nat
  message : String
deriving DecidableEq

/-- verifyCredentialDetailed: increments all three counters first, then
tries the ledger read; the catch branch yields the not-found result. -/
def verifyCredentialDetailed (nft : NFTState) (reg : RegistryState) (v : VerifState)
    (sender tokenId now : Nat) : VerifState × VerificationResult :=
  let v' : VerifState :=
    { verificationCount := updMap v.verificationCount tokenId (v.verificationCount tokenId + 1)
      verifierCount := updMap v.verifierCount sender (v.verifierCount sender + 1)
      totalVerifications := v.totalVerifications + 1 }
  match verifyCredential nft tokenId now with
  | .ok o =>
    let mv : String × Bool :=
      if o.revoked then ("Credential has been revoked by issuer", false)
      else if o.expired then ("Credential has expired", false)
      else if ¬ isAuthorizedIssuer reg o.issuer then ("Issuer is no longer authorized", false)
      else if o.isValid then ("Credential is valid and verified", o.isValid)
      else ("Credential is invalid", o.isValid)
    (v', { isValid := mv.2, exists_ := true, expired := o.expired, revoked := o.revoked,
           issuer := o.issuer, recipient := o.recipient,
           credentialType := o.credentialType, institutionName := o.institutionName,
           issueDate := o.issueDate, message := mv.1 })
  | .error _ =>
    (v', { isValid := false, exists_ := false, expired := false, revoked := false,
           issuer := 0, recipient := 0, credentialType := "", institutionName := "",
           issueDate := 0, message := "Credential does not exist" })

/-- The VerificationResult of a call, without the counter updates. -/
def detailedResult (nft : NFTState) (reg : RegistryState) (v : VerifState)
    (sender tokenId now : Nat) : VerificationResult :=
  (verifyCredentialDetailed nft reg v sender tokenId now).2

/-- quickVerify: ledger validity AND current issuer authorization,
false (never a revert) when the ledger read fails. -/
def quickVerify (nft : NFTState) (reg : RegistryState) (tokenId now : Nat) : Bool :=
  match verifyCredential nft tokenId now with
  | .ok o => o.isValid && isAuthorizedIssuer reg o.issuer
  | .error _ => false

/-! ## Registry operation traces -/

/-- One registry call, with its msg.sender. -/
inductive RegOp where
  | register (sender addr : Nat) (name website email documentHash : String) (now : Nat)
  | verify (sender addr : Nat)
  | revoke (sender addr : Nat)
  | updateInfo (sender addr : Nat) (name website email : String)
  | updateDocs (sender addr : Nat) (documentHash : String)
  | addAdm (sender a : Nat)
  | removeAdm (sender a : Nat)
  | increment (sender issuer : Nat)

/-- The Except result of one registry call. -/
def regOpCall (s : RegistryState) : RegOp → Except String RegistryState
  | .register sender addr name website email documentHash now =>
      registerInstitution s sender addr name website email documentHash now
  | .verify sender addr => verifyInstitution s sender addr
  | .revoke sender addr => revokeInstitution s sender addr
  | .updateInfo sender addr name website email =>
      updateInstitutionInfo s sender addr name website email
  | .updateDocs sender addr documentHash =>
      updateInstitutionDocuments s sender addr documentHash
  | .addAdm sender a => addAdmin s sender a
  | .removeAdm sender a => removeAdmin s sender a
  | .increment sender issuer => incrementCredentialCount s sender issuer

/-- Apply one call with revert semantics: a failed call leaves the state. -/
def applyRegOp (s : RegistryState) (op : RegOp) : RegistryState :=
  match regOpCall s op with
  | .ok s' => s'
  | .error _ => s

/-- Run a sequence of registry calls. -/
def runRegOps (s : RegistryState) (ops : List RegOp) : RegistryState :=
  ops.foldl applyRegOp s

/-- The authorization event a call produces for address `a`:
some true when it is a verifyInstitution(a) that succeeds in state `s`,
some false when it is a revokeInstitution(a) that succeeds, none otherwise. -/
def regOpEvent (s : RegistryState) (a : Nat) : RegOp → Option Bool
  | .verify sender addr =>
      if addr == a && exOk (verifyInstitution s sender addr) then some true else none
  | .revoke sender addr =>
      if addr == a && exOk (revokeInstitution s sender addr) then some false else none
  | _ => none

/-- The sequence of successful verify/revoke events for address `a` along a
trace of registry calls (true = verifyInstitution succeeded, false =
revokeInstitution succeeded). -/
def authEvents (s : RegistryState) (a : Nat) : List RegOp → List Bool
  | [] => []
  | op :: rest => (regOpEvent s a op).toList ++ authEvents (applyRegOp s op) a rest

/-! ## Credential ledger operation traces -/

/-- One state-mutating call of CredentialNFT, with its msg.sender. -/
inductive NFTOp where
  | issue (sender recipient : Nat) (credentialType institutionName : String)
      (expiryDate : Nat) (ipfsHash tokenMetadataURI : String) (now : Nat)
  | batchIssue (sender : Nat) (recipients : List Nat) (credentialTypes : List String)
      (institutionName : String) (expiryDate : Nat)
      (ipfsHashes tokenURIs : List String) (now : Nat)
  | revoke (sender tokenId : Nat)
  | transfer (sender fromAddr toAddr tokenId : Nat)

/-- Apply one ledger call to the ledger-and-registry pair, with revert
semantics. -/
def applyNFTOp (p : RegistryState × NFTState) (op : NFTOp) : RegistryState × NFTState :=
  match op with
  | .issue sender recipient credentialType institutionName expiryDate ipfsHash uri now =>
    match issueCredential p.1 p.2 sender recipient credentialType institutionName
        expiryDate ipfsHash uri now with
    | .ok (reg', s', _) => (reg', s')
    | .error _ => p
  | .batchIssue sender recipients credentialTypes institutionName expiryDate ipfsHashes uris now =>
    match batchIssueCredentials p.1 p.2 sender recipients credentialTypes
        institutionName expiryDate ipfsHashes uris now with
    | .ok (reg', s') => (reg', s')
    | .error _ => p
  | .revoke sender tokenId =>
    match revokeCredential p.2 sender tokenId with
    | .ok s' => (p.1, s')
    | .error _ => p
  | .transfer sender fromAddr toAddr tokenId =>
    match transferCredential p.2 sender fromAddr toAddr tokenId with
    | .ok s' => (p.1, s')
    | .error _ => p

/-- Run a sequence of ledger calls. -/
def runNFTOps (p : RegistryState × NFTState) (ops : List NFTOp) : RegistryState × NFTState :=
  ops.foldl applyNFTOp p

/-! ## BlockchainController (src/unnamed/part_004, off-chain) -/

/-- A transaction receipt as the controller reads it. -/
structure Receipt where
  blockNumber : Nat
  gasUsed : Nat
deriving DecidableEq

/-- What one poll of the provider observes: the receipt (none while the
transaction is unmined) and the current block number at that moment. -/
structure PollObs where
  receipt : Option Receipt
  currentBlock : Nat
deriving DecidableEq

/-- The polling loop of waitForTransactionWithTimeout: poll k fires at
(k+1) * intervalMs; the deadline timer wins once timeoutMs is reached. A
poll that sees a receipt resolves only when the confirmation depth
currentBlock - receipt.blockNumber has reached `confirmations`. -/
def waitPolls (confirmations timeoutMs intervalMs : Nat) :
    Nat → List PollObs → Option Receipt
  | _, [] => none
  | k, p :: rest =>
    if timeoutMs ≤ intervalMs * (k + 1) then none
    else
      match p.receipt with
      | some r =>
        if confirmations ≤ p.currentBlock - r.blockNumber then some r
        else waitPolls confirmations timeoutMs intervalMs (k + 1) rest
      | none => waitPolls confirmations timeoutMs intervalMs (k + 1) rest

/-- waitForTransactionWithTimeout: fixed 10-second polling cadence under a
hard wall-clock deadline; resolves none on timeout. -/
def waitForTransactionWithTimeout (confirmations timeoutMs : Nat)
    (polls : List PollObs) : Option Receipt :=
  waitPolls confirmations timeoutMs 10000 0 polls

/-- The authenticated user the middleware hands to the controller. -/
structure BlockchainUser where
  userType : String
  walletAddress : Nat
  name : String
  email : String
deriving DecidableEq

/-- The environment of one registerUserOnBlockchain request: the current
on-chain registry state, the server signing wallet, the request's optional
organization website, the hashes the two submissions would get, and what
the polling loop would observe for each. -/
structure RegisterEnv where
  registry : RegistryState
  serverWallet : Nat
  orgWebsite : String
  chainNow : Nat
  regTxHash : String
  regPolls : List PollObs
  verTxHash : String
  verPolls : List PollObs

/-- A transaction as reported in the JSON response. -/
structure TxInfo where
  hash : String
  blockNumber : Option Nat
deriving DecidableEq

/-- The observable outcome of one registerUserOnBlockchain request: the
HTTP response fields, the verificationStatus value written to the local
user record (none when no write happened), and whether each of the two
transactions was actually submitted to the chain. -/
structure RegisterResponse where
  httpStatus : Nat
  success : Bool
  error : Option String
  details : Option String
  status : Option String
  registrationTx : Option TxInfo
  verificationTx : Option TxInfo
  dbVerificationStatus : Option String
  regSubmitted : Bool
  verSubmitted : Bool
deriving DecidableEq

/-- A 4xx/5xx JSON error response (the body carries no success flag). -/
def errorResponse (code : Nat) (msg : String) (det : Option String)
    (regSub verSub : Bool) : RegisterResponse :=
  { httpStatus := code, success := false, error := some msg, details := det,
    status := none, registrationTx := none, verificationTx := none,
    dbVerificationStatus := none, regSubmitted := regSub, verSubmitted := verSub }

/-- Step 2 of the workflow: verify the institution (whether just
registered or already registered). `curReg` is the chain state the
verification call sees; regHash/regReceipt describe the registration
transaction when one was submitted. A failing verifyInstitution call makes
gas estimation throw, which the catch turns into a 500. -/
def verificationStep (env : RegisterEnv) (user : BlockchainUser)
    (curReg : RegistryState) (regHash : Option String)
    (regReceipt : Option Receipt) : RegisterResponse :=
  match verifyInstitution curReg env.serverWallet user.walletAddress with
  | .error e => errorResponse 500 "Failed to register on blockchain" (some e)
      regHash.isSome false
  | .ok reg2 =>
    match waitForTransactionWithTimeout 2 60000 env.verPolls with
    | none =>
      { httpStatus := 200, success := true, error := none, details := none
        status := some "verification_pending"
        registrationTx := regHash.map fun h =>
          { hash := h, blockNumber := regReceipt.map (·.blockNumber) }
        verificationTx := some { hash := env.verTxHash, blockNumber := none }
        dbVerificationStatus := some "pending"
        regSubmitted := regHash.isSome, verSubmitted := true }
    | some vrcpt =>
      { httpStatus := 200, success := true, error := none, details := none
        status := some (if isAuthorizedIssuer reg2 user.walletAddress
          then "fully_verified" else "verification_pending")
        registrationTx := regHash.map fun h =>
          { hash := h, blockNumber := regReceipt.map (·.blockNumber) }
        verificationTx := some { hash := env.verTxHash, blockNumber := some vrcpt.blockNumber }
        dbVerificationStatus := some "confirmed"
        regSubmitted := regHash.isSome, verSubmitted := true }

/-- registerUserOnBlockchain: validate the user type, refuse an already
authorized wallet, register the institution when it is missing (timing out
there throws, which the catch turns into a 500 error), then verify it;
a verification-wait timeout yields the partial-success pending response. -/
def registerUserOnBlockchain (env : RegisterEnv) (user : BlockchainUser) :
    RegisterResponse :=
  if ¬ (user.userType = "institution" ∨ user.userType = "company" ∨
        user.userType = "verifier") then
    errorResponse 400 "Only institutions, employers, and verifiers can register on blockchain"
      none false false
  else if isAuthorizedIssuer env.registry user.walletAddress then
    errorResponse 400 "User is already registered and verified on blockchain"
      none false false
  else if (env.registry.institutions user.walletAddress).name ≠ "" then
    verificationStep env user env.registry none none
  else
    match registerInstitution env.registry env.serverWallet user.walletAddress
        user.name env.orgWebsite user.email "" env.chainNow with
    | .error e => errorResponse 500 "Failed to register on blockchain" (some e) false false
    | .ok reg1 =>
      match waitForTransactionWithTimeout 2 60000 env.regPolls with
      | none => errorResponse 500 "Failed to register on blockchain"
          (some "Registration transaction timed out - please check transaction status manually")
          true false
      | some rcpt => verificationStep env user reg1 (some env.regTxHash) (some rcpt)

/-! ## Helper lemmas -/

@[simp] theorem updMap_same {α : Type} (f : Nat → α) (k : Nat) (v : α) :
    updMap f k v k = v := by
  simp [updMap]

theorem updMap_apply {α : Type} (f : Nat → α) (k x : Nat) (v : α) :
    updMap f k v x = if x = k then v else f x := rfl

theorem updMap_ne {α : Type} (f : Nat → α) {k x : Nat} (v : α) (h : x ≠ k) :
    updMap f k v x = f x := by simp [updMap, h]

/-! ## Concrete states used by witnesses and counterexamples -/

/-- A registry whose owner/admin is 1 and whose only authorized issuer is 3. -/
def regW : RegistryState :=
  { owner := 1
    admins := fun a => a == 1
    institutions := fun a =>
      if a = 3 then
        { name := "Uni", website := "w", email := "e", walletAddress := 3,
          verified := true, registrationDate := 5, credentialsIssued := 0,
          documentHash := "d" }
      else Institution.empty
    authorizedIssuers := fun a => a == 3
    issuerList := [3] }

/-- A ledger holding one minted credential, token 0: issued by 3 to 4,
expiryDate 50, not revoked. -/
def nft6 : NFTState :=
  { tokenIdCounter := 1
    credentials := updMap (fun _ => Credential.empty) 0
      { issuer := 3, recipient := 4, credentialType := "Degree",
        institutionName := "Uni", issueDate := 10, expiryDate := 50,
        ipfsHash := "Qm", revoked := false }
    userCredentials := updMap (fun _ => []) 4 [0]
    owners := updMap (fun _ => none) 0 (some 4)
    tokenURIs := updMap (fun _ => "") 0 "u" }

/-- What verifyCredential returns on a minted token. -/
theorem verifyCredential_some (s : NFTState) (tokenId now ow : Nat)
    (how : s.owners tokenId = some ow) :
    verifyCredential s tokenId now = .ok
      { isValid := !(s.credentials tokenId).revoked &&
          !((s.credentials tokenId).expiryDate != 0 &&
            decide (now > (s.credentials tokenId).expiryDate))
        issuer := (s.credentials tokenId).issuer
        recipient := (s.credentials tokenId).recipient
        credentialType := (s.credentials tokenId).credentialType
        institutionName := (s.credentials tokenId).institutionName
        issueDate := (s.credentials tokenId).issueDate
        expired := (s.credentials tokenId).expiryDate != 0 &&
          decide (now > (s.credentials tokenId).expiryDate)
        revoked := (s.credentials tokenId).revoked } := by
  unfold verifyCredential
  rw [how]
  rfl

/-! ## Claim theorems -/

/-- C6: for every minted tokenId, the ledger's verifyCredential computes
expired = (expiryDate != 0 && now > expiryDate) with a strict comparison:
expiryDate = 0 is never expired, expiryDate = now is not yet expired (and
the credential is still valid when unrevoked), and a strictly past expiry
is expired. -/
theorem verifyCredential_expiry_strict (s : NFTState) (tokenId now : Nat)
    (hex : (s.owners tokenId).isSome = true) :
    ∃ o, verifyCredential s tokenId now = .ok o ∧
      o.expired = ((s.credentials tokenId).expiryDate != 0 &&
        decide (now > (s.credentials tokenId).expiryDate)) ∧
      ((s.credentials tokenId).expiryDate = 0 → o.expired = false) ∧
      ((s.credentials tokenId).expiryDate = now → o.expired = false) ∧
      ((s.credentials tokenId).expiryDate ≠ 0 →
        now > (s.credentials tokenId).expiryDate → o.expired = true) ∧
      ((s.credentials tokenId).expiryDate = now →
        (s.credentials tokenId).revoked = false → o.isValid = true) := by
  obtain ⟨ow, how⟩ := Option.isSome_iff_exists.mp hex
  refine ⟨_, verifyCredential_some s tokenId now ow how, rfl, ?_, ?_, ?_, ?_⟩
  · intro h0; simp [h0]
  · intro hnow; simp [← hnow]
  · intro h0 hlt; simp [h0, hlt]
  · intro hnow hrev; simp [← hnow, hrev]

/-- C6 witness: a concrete minted credential with expiryDate = 50. -/
theorem verifyCredential_expiry_strict_witness :
    ((nft6.owners 0).isSome = true) ∧
    (∃ o, verifyCredential nft6 0 50 = .ok o ∧
      o.expired = ((nft6.credentials 0).expiryDate != 0 &&
        decide (50 > (nft6.credentials 0).expiryDate)) ∧
      ((nft6.credentials 0).expiryDate = 0 → o.expired = false) ∧
      ((nft6.credentials 0).expiryDate = 50 → o.expired = false) ∧
      ((nft6.credentials 0).expiryDate ≠ 0 →
        50 > (nft6.credentials 0).expiryDate → o.expired = true) ∧
      ((nft6.credentials 0).expiryDate = 50 →
        (nft6.credentials 0).revoked = false → o.isValid = true)) :=
  ⟨rfl, verifyCredential_expiry_strict nft6 0 50 rfl⟩

/-- C1: for every minted tokenId, verifyCredentialDetailed applies a
strict priority of invalidity reasons: revoked (regardless of expiry or
issuer authorization) beats expired beats issuer-deauthorized; in the
remaining case the message indicates validity and isValid equals the
ledger's own isValid flag. -/
theorem verifyCredentialDetailed_priority (nft : NFTState) (reg : RegistryState)
    (v : VerifState) (sender tokenId now : Nat)
    (hex : (nft.owners tokenId).isSome = true) :
    ((nft.credentials tokenId).revoked = true →
      (detailedResult nft reg v sender tokenId now).isValid = false ∧
      (detailedResult nft reg v sender tokenId now).message =
        "Credential has been revoked by issuer") ∧
    ((nft.credentials tokenId).revoked = false →
      (nft.credentials tokenId).expiryDate ≠ 0 →
      now > (nft.credentials tokenId).expiryDate →
      (detailedResult nft reg v sender tokenId now).isValid = false ∧
      (detailedResult nft reg v sender tokenId now).message = "Credential has expired") ∧
    ((nft.credentials tokenId).revoked = false →
      ((nft.credentials tokenId).expiryDate = 0 ∨ now ≤ (nft.credentials tokenId).expiryDate) →
      isAuthorizedIssuer reg (nft.credentials tokenId).issuer = false →
      (detailedResult nft reg v sender tokenId now).isValid = false ∧
      (detailedResult nft reg v sender tokenId now).message = "Issuer is no longer authorized") ∧
    ((nft.credentials tokenId).revoked = false →
      ((nft.credentials tokenId).expiryDate = 0 ∨ now ≤ (nft.credentials tokenId).expiryDate) →
      isAuthorizedIssuer reg (nft.credentials tokenId).issuer = true →
      ∃ o, verifyCredential nft tokenId now = .ok o ∧
        (detailedResult nft reg v sender tokenId now).message =
          "Credential is valid and verified" ∧
        (detailedResult nft reg v sender tokenId now).isValid = o.isValid) := by
  obtain ⟨ow, how⟩ := Option.isSome_iff_exists.mp hex
  have hvc := verifyCredential_some nft tokenId now ow how
  have hexp : ∀ h0 : ((nft.credentials tokenId).expiryDate = 0 ∨
      now ≤ (nft.credentials tokenId).expiryDate),
      ((nft.credentials tokenId).expiryDate != 0 &&
        decide (now > (nft.credentials tokenId).expiryDate)) = false := by
    rintro (h0 | h0) <;> simp [h0]
  refine ⟨?_, ?_, ?_, ?_⟩
  · intro hr
    simp [detailedResult, verifyCredentialDetailed, hvc, hr]
  · intro hr h0 hlt
    simp [detailedResult, verifyCredentialDetailed, hvc, hr, h0, hlt]
  · intro hr h0 hauth
    simp [detailedResult, verifyCredentialDetailed, hvc, hr, hexp h0, hauth]
  · intro hr h0 hauth
    refine ⟨_, hvc, ?_, ?_⟩ <;>
      simp [detailedResult, verifyCredentialDetailed, hvc, hr, hexp h0, hauth]

/-- C1 witness: the concrete minted credential of nft6 under regW, taken
through each reachable branch (here the revoked-free valid branch at time
20, plus the discharged hypothesis). -/
theorem verifyCredentialDetailed_priority_witness :
    ((nft6.owners 0).isSome = true) ∧
    (((nft6.credentials 0).revoked = false →
      ((nft6.credentials 0).expiryDate = 0 ∨ (20 : Nat) ≤ (nft6.credentials 0).expiryDate) →
      isAuthorizedIssuer regW (nft6.credentials 0).issuer = true →
      ∃ o, verifyCredential nft6 0 20 = .ok o ∧
        (detailedResult nft6 regW initVerif 9 0 20).message =
          "Credential is valid and verified" ∧
        (detailedResult nft6 regW initVerif 9 0 20).isValid = o.isValid)) :=
  ⟨rfl, (verifyCredentialDetailed_priority nft6 regW initVerif 9 0 20 rfl).2.2.2⟩

/-- C2 counterexample: token 0 was never minted in initNFT, yet a
verifyCredentialDetailed call on it increments the per-credential
verification count for token 0 from 0 to 1 (the increment happens before
the existence check), contradicting the claim that the per-credential
count is left unchanged. -/
theorem notFound_counts_credential_cex :
    initNFT.owners 0 = none ∧
    initVerif.verificationCount 0 = 0 ∧
    (verifyCredentialDetailed initNFT (initRegistry 1) initVerif 7 0 5).1.verificationCount 0 = 1 :=
  ⟨rfl, rfl, rfl⟩

/-- C2 amended: a verifyCredentialDetailed call on a never-minted tokenId
increments the calling verifier's count, the global total AND the
per-credential count of that tokenId (all three counters are bumped before
the existence check), and returns exists=false, isValid=false. -/
theorem notFound_counts_amended (nft : NFTState) (reg : RegistryState)
    (v : VerifState) (sender tokenId now : Nat)
    (h : nft.owners tokenId = none) :
    (verifyCredentialDetailed nft reg v sender tokenId now).1.verificationCount tokenId
      = v.verificationCount tokenId + 1 ∧
    (verifyCredentialDetailed nft reg v sender tokenId now).1.verifierCount sender
      = v.verifierCount sender + 1 ∧
    (verifyCredentialDetailed nft reg v sender tokenId now).1.totalVerifications
      = v.totalVerifications + 1 ∧
    (detailedResult nft reg v sender tokenId now).exists_ = false ∧
    (detailedResult nft reg v sender tokenId now).isValid = false := by
  have hvc : verifyCredential nft tokenId now = .error "Credential does not exist" := by
    unfold verifyCredential
    rw [h]
    rfl
  simp [detailedResult, verifyCredentialDetailed, hvc]

/-- C2 amended witness: concrete instance at the unminted token 0. -/
theorem notFound_counts_amended_witness :
    initNFT.owners 0 = none ∧
    ((verifyCredentialDetailed initNFT (initRegistry 1) initVerif 7 0 5).1.verificationCount 0
        = initVerif.verificationCount 0 + 1 ∧
      (verifyCredentialDetailed initNFT (initRegistry 1) initVerif 7 0 5).1.verifierCount 7
        = initVerif.verifierCount 7 + 1 ∧
      (verifyCredentialDetailed initNFT (initRegistry 1) initVerif 7 0 5).1.totalVerifications
        = initVerif.totalVerifications + 1 ∧
      (detailedResult initNFT (initRegistry 1) initVerif 7 0 5).exists_ = false ∧
      (detailedResult initNFT (initRegistry 1) initVerif 7 0 5).isValid = false) :=
  ⟨rfl, notFound_counts_amended initNFT (initRegistry 1) initVerif 7 0 5 rfl⟩

/-- C8 counterexample: address 5 is not an authorized issuer, not an
admin and not the owner (it is no contract either, since the require never
inspects msg.sender), yet its call incrementCredentialCount(3) succeeds
and bumps institution 3's counter: the require guards the `issuer`
argument, not the calling context. -/
theorem incrementCredentialCount_caller_cex :
    regW.authorizedIssuers 5 = false ∧ regW.admins 5 = false ∧ regW.owner ≠ 5 ∧
    exOk (incrementCredentialCount regW 5 3) = true ∧
    (incrementCredentialCount regW 5 3).map
      (fun r => (r.institutions 3).credentialsIssued) = .ok 1 :=
  ⟨rfl, rfl, by decide, rfl, rfl⟩

/-- C8 amended: incrementCredentialCount(issuer) succeeds exactly when the
`issuer` argument is currently in the authorized-issuer set, no matter who
the caller is; when the issuer argument is not authorized it fails with
the NotAuthorizedIssuer revert and (by revert semantics) every counter is
unchanged. On success only the named issuer's record changes, and its
credentials-issued counter goes up by one. -/
theorem incrementCredentialCount_spec (s : RegistryState) (sender issuer : Nat) :
    (s.authorizedIssuers issuer = false →
      incrementCredentialCount s sender issuer = .error "Not authorized issuer") ∧
    (s.authorizedIssuers issuer = true →
      ∃ s', incrementCredentialCount s sender issuer = .ok s' ∧
        (s'.institutions issuer).credentialsIssued
          = (s.institutions issuer).credentialsIssued + 1 ∧
        s'.authorizedIssuers = s.authorizedIssuers ∧
        (∀ a, a ≠ issuer → s'.institutions a = s.institutions a)) := by
  constructor
  · intro h
    simp [incrementCredentialCount, h]
  · intro h
    have hok : incrementCredentialCount s sender issuer = .ok { s with institutions := updMap s.institutions issuer { s.institutions issuer with credentialsIssued := (s.institutions issuer).credentialsIssued + 1 } } := by
      simp [incrementCredentialCount, h]
    refine ⟨_, hok, by simp, rfl, ?_⟩
    intro a ha
    exact updMap_ne _ _ ha

/-- What a successful incrementCredentialCount implies and preserves. -/
theorem incrementCredentialCount_ok (s : RegistryState) (sender issuer : Nat)
    (r : RegistryState) (h : incrementCredentialCount s sender issuer = .ok r) :
    s.authorizedIssuers issuer = true ∧ r.authorizedIssuers = s.authorizedIssuers ∧
    r.owner = s.owner ∧ r.admins = s.admins ∧ r.issuerList = s.issuerList := by
  unfold incrementCredentialCount at h
  split_ifs at h with h1
  cases h
  exact ⟨h1, rfl, rfl, rfl, rfl⟩

/-- What a successful issueCredential implies and produces. -/
theorem issueCredential_ok (reg : RegistryState) (s : NFTState) (sender recipient : Nat)
    (ct iname : String) (expiry : Nat) (ipfs uri : String) (now : Nat)
    (reg' : RegistryState) (s' : NFTState) (tid : Nat)
    (h : issueCredential reg s sender recipient ct iname expiry ipfs uri now
      = .ok (reg', s', tid)) :
    tid = s.tokenIdCounter ∧ s.owners tid = none ∧ recipient ≠ 0 ∧
    isAuthorizedIssuer reg sender = true ∧
    s'.credentials = updMap s.credentials tid { issuer := sender, recipient := recipient, credentialType := ct, institutionName := iname, issueDate := now, expiryDate := expiry, ipfsHash := ipfs, revoked := false } ∧
    s'.owners = updMap s.owners tid (some recipient) ∧
    s'.tokenIdCounter = s.tokenIdCounter + 1 ∧
    reg'.authorizedIssuers = reg.authorizedIssuers := by
  by_cases h1 : isAuthorizedIssuer reg sender = true
  case neg => simp [issueCredential, h1] at h
  by_cases h2 : recipient = 0
  case pos => simp [issueCredential, h1, h2] at h
  by_cases h3 : (s.owners s.tokenIdCounter).isSome = true
  case pos => simp [issueCredential, h1, h2, h3] at h
  cases hic : incrementCredentialCount reg 0 sender with
  | error e => simp [issueCredential, h1, h2, h3, hic] at h
  | ok r2 =>
    obtain ⟨-, hpre, -, -, -⟩ := incrementCredentialCount_ok reg 0 sender r2 hic
    simp [issueCredential, h1, h2, h3, hic] at h
    obtain ⟨h4, h5, h6⟩ := h
    subst h4
    subst h6
    rw [← h5]
    refine ⟨rfl, ?_, h2, h1, rfl, rfl, rfl, hpre⟩
    simpa [Option.isNone_iff_eq_none] using h3

/-- What a successful revokeCredential implies and produces. -/
theorem revokeCredential_ok (s : NFTState) (sender tokenId : Nat) (s' : NFTState)
    (h : revokeCredential s sender tokenId = .ok s') :
    s.owners tokenId ≠ none ∧ (s.credentials tokenId).issuer = sender ∧
    (s.credentials tokenId).revoked = false ∧
    s'.credentials = updMap s.credentials tokenId { s.credentials tokenId with revoked := true } ∧
    s'.owners = s.owners := by
  unfold revokeCredential at h
  split_ifs at h with h1 h2 h3
  cases h
  refine ⟨?_, not_not.mp h2, ?_, rfl, rfl⟩
  · simpa [Option.isNone_iff_eq_none] using h1
  · simpa using h3

/-- The batch loop keeps a revoked minted credential revoked and minted. -/
theorem batchLoop_preserves (sender : Nat) (iname : String) (expiry now t : Nat) :
    ∀ (entries : List (Nat × String × String × String)) (reg : RegistryState)
      (s : NFTState) (reg' : RegistryState) (s' : NFTState),
      batchLoop sender iname expiry now reg s entries = .ok (reg', s') →
      (s.credentials t).revoked = true → s.owners t ≠ none →
      (s'.credentials t).revoked = true ∧ s'.owners t ≠ none
  | [], reg, s, reg', s', h, hr, ho => by
      unfold batchLoop at h
      cases h
      exact ⟨hr, ho⟩
  | e :: rest, reg, s, reg', s', h, hr, ho => by
      unfold batchLoop at h
      cases hi : issueCredential reg s sender e.1 e.2.1 iname expiry e.2.2.1 e.2.2.2 now with
      | error msg => rw [hi] at h; cases h
      | ok trip =>
        rw [hi] at h
        obtain ⟨reg2, s2, tid⟩ := trip
        obtain ⟨-, hnone, -, -, hcred, hown, -, -⟩ :=
          issueCredential_ok reg s sender e.1 e.2.1 iname expiry e.2.2.1 e.2.2.2 now reg2 s2 tid hi
        have ht : t ≠ tid := fun he => ho (by rw [he]; exact hnone)
        refine batchLoop_preserves sender iname expiry now t rest reg2 s2 reg' s' h ?_ ?_
        · rw [hcred, updMap_ne _ _ ht]; exact hr
        · rw [hown, updMap_ne _ _ ht]; exact ho

/-- Every single ledger call keeps a revoked minted credential revoked
(and minted). -/
theorem applyNFTOp_preserves_revoked (p : RegistryState × NFTState) (op : NFTOp) (t : Nat)
    (hr : (p.2.credentials t).revoked = true) (ho : p.2.owners t ≠ none) :
    ((applyNFTOp p op).2.credentials t).revoked = true ∧
    (applyNFTOp p op).2.owners t ≠ none := by
  cases op with
  | issue sender recipient ct iname expiry ipfs uri now =>
    cases hi : issueCredential p.1 p.2 sender recipient ct iname expiry ipfs uri now with
    | error e => simp only [applyNFTOp, hi]; exact ⟨hr, ho⟩
    | ok trip =>
      obtain ⟨reg', s', tid⟩ := trip
      simp only [applyNFTOp, hi]
      obtain ⟨-, hnone, -, -, hcred, hown, -, -⟩ :=
        issueCredential_ok p.1 p.2 sender recipient ct iname expiry ipfs uri now reg' s' tid hi
      have ht : t ≠ tid := fun he => ho (by rw [he]; exact hnone)
      constructor
      · rw [hcred, updMap_ne _ _ ht]; exact hr
      · rw [hown, updMap_ne _ _ ht]; exact ho
  | batchIssue sender recipients cts iname expiry ipfss uris now =>
    cases hb : batchIssueCredentials p.1 p.2 sender recipients cts iname expiry ipfss uris now with
    | error e => simp only [applyNFTOp, hb]; exact ⟨hr, ho⟩
    | ok pr =>
      obtain ⟨reg', s'⟩ := pr
      simp only [applyNFTOp, hb]
      unfold batchIssueCredentials at hb
      split_ifs at hb
      exact batchLoop_preserves sender iname expiry now t _ p.1 p.2 reg' s' hb hr ho
  | revoke sender tokenId =>
    cases hv : revokeCredential p.2 sender tokenId with
    | error e => simp only [applyNFTOp, hv]; exact ⟨hr, ho⟩
    | ok s' =>
      simp only [applyNFTOp, hv]
      obtain ⟨-, -, -, hcred, hown⟩ := revokeCredential_ok p.2 sender tokenId s' hv
      constructor
      · rw [hcred, updMap_apply]
        by_cases he : t = tokenId
        · simp [he]
        · rw [if_neg he]; exact hr
      · rw [hown]; exact ho
  | transfer sender fromAddr toAddr tokenId =>
    cases htr : transferCredential p.2 sender fromAddr toAddr tokenId with
    | error e => simp only [applyNFTOp, htr]; exact ⟨hr, ho⟩
    | ok s' =>
      simp only [applyNFTOp, htr]
      unfold transferCredential at htr
      split_ifs at htr
      cases htr
      refine ⟨hr, ?_⟩
      show updMap p.2.owners tokenId (some toAddr) t ≠ none
      rw [updMap_apply]
      by_cases he : t = tokenId
      · simp [he]
      · rw [if_neg he]; exact ho

/-- Running any sequence of ledger calls keeps a revoked minted credential
revoked (and minted). -/
theorem runNFTOps_preserves_revoked (t : Nat) :
    ∀ (ops : List NFTOp) (p : RegistryState × NFTState),
      (p.2.credentials t).revoked = true → p.2.owners t ≠ none →
      ((runNFTOps p ops).2.credentials t).revoked = true ∧
      (runNFTOps p ops).2.owners t ≠ none
  | [], _, hr, ho => ⟨hr, ho⟩
  | op :: ops, p, hr, ho => by
      have h1 := applyNFTOp_preserves_revoked p op t hr ho
      exact runNFTOps_preserves_revoked t ops (applyNFTOp p op) h1.1 h1.2

/-- C7: revokeCredential fails exactly when the token was never minted
(NotFound), the caller is not the issuer recorded at mint time (NotIssuer;
transfers never touch that record), or the credential is already revoked
(AlreadyRevoked) — each failure is an Except.error, which by the revert
semantics of the embedding leaves all state unchanged; on success it sets
revoked = true, and no sequence of ledger operations ever makes it false
again. -/
theorem revokeCredential_spec (s : NFTState) (sender tokenId : Nat) :
    (s.owners tokenId = none →
      revokeCredential s sender tokenId = .error "Credential does not exist") ∧
    (s.owners tokenId ≠ none → (s.credentials tokenId).issuer ≠ sender →
      revokeCredential s sender tokenId = .error "Only issuer can revoke") ∧
    (s.owners tokenId ≠ none → (s.credentials tokenId).issuer = sender →
      (s.credentials tokenId).revoked = true →
      revokeCredential s sender tokenId = .error "Already revoked") ∧
    (∀ s', revokeCredential s sender tokenId = .ok s' →
      s.owners tokenId ≠ none ∧ (s.credentials tokenId).issuer = sender ∧
      (s.credentials tokenId).revoked = false ∧
      (s'.credentials tokenId).revoked = true ∧
      (∀ reg ops, ((runNFTOps (reg, s') ops).2.credentials tokenId).revoked = true)) := by
  refine ⟨?_, ?_, ?_, ?_⟩
  · intro h
    simp [revokeCredential, Option.isNone_iff_eq_none, h]
  · intro h1 h2
    obtain ⟨x, hx⟩ := Option.ne_none_iff_exists'.mp h1
    simp [revokeCredential, hx, h2]
  · intro h1 h2 h3
    obtain ⟨x, hx⟩ := Option.ne_none_iff_exists'.mp h1
    simp [revokeCredential, hx, h2, h3]
  · intro s' h
    obtain ⟨h1, h2, h3, hcred, hown⟩ := revokeCredential_ok s sender tokenId s' h
    have hrev : (s'.credentials tokenId).revoked = true := by
      rw [hcred, updMap_same]
    have hmint : s'.owners tokenId ≠ none := by
      rw [hown]; exact h1
    exact ⟨h1, h2, h3, hrev, fun reg ops =>
      (runNFTOps_preserves_revoked tokenId ops (reg, s') hrev hmint).1⟩

/-- C10: after an admin wipes a registered institution's name by calling
updateInstitutionInfo with an empty name (which the contract does not
validate), a subsequent registerInstitution for the same address succeeds
instead of reverting with AlreadyRegistered, overwriting the record with a
fresh one (verified = false, credentialsIssued = 0), while
authorizedIssuers and the issuer enumeration list keep their old values. -/
theorem reregister_after_name_wipe (s : RegistryState) (sender1 sender2 a : Nat)
    (w1 e1 nm w2 e2 dh : String) (now : Nat)
    (h : isAdmin s sender1 = true) (g : isAdmin s sender2 = true)
    (r : (s.institutions a).name ≠ "") (z : a ≠ 0) (n : nm ≠ "") :
    ∃ s1 s2, updateInstitutionInfo s sender1 a "" w1 e1 = .ok s1 ∧
      registerInstitution s1 sender2 a nm w2 e2 dh now = .ok s2 ∧
      s2.institutions a = { name := nm, website := w2, email := e2, walletAddress := a, verified := false, registrationDate := now, credentialsIssued := 0, documentHash := dh } ∧
      s2.authorizedIssuers = s.authorizedIssuers ∧
      s2.issuerList = s.issuerList := by
  set i1 : Institution := { s.institutions a with name := "", website := w1, email := e1 } with hi1
  set S1 : RegistryState := { s with institutions := updMap s.institutions a i1 } with hS1
  have h1 : updateInstitutionInfo s sender1 a "" w1 e1 = .ok S1 := by
    simp [updateInstitutionInfo, h, r, hS1, hi1]
  have hname : (S1.institutions a).name = "" := by
    simp [hS1, hi1]
  have g2 : isAdmin S1 sender2 = true := g
  set i2 : Institution := { name := nm, website := w2, email := e2, walletAddress := a, verified := false, registrationDate := now, credentialsIssued := 0, documentHash := dh } with hi2
  set S2 : RegistryState := { S1 with institutions := updMap S1.institutions a i2 } with hS2
  have h2 : registerInstitution S1 sender2 a nm w2 e2 dh now = .ok S2 := by
    simp [registerInstitution, g2, z, n, hname, hS2, hi2]
  refine ⟨S1, S2, h1, h2, ?_, rfl, rfl⟩
  simp [hS2, hi2]

/-- C10 witness: the registered and authorized institution 3 of regW. -/
theorem reregister_after_name_wipe_witness :
    (isAdmin regW 1 = true ∧ (regW.institutions 3).name ≠ "" ∧ (3 : Nat) ≠ 0 ∧
      "Col" ≠ "") ∧
    (∃ s1 s2, updateInstitutionInfo regW 1 3 "" "w1" "e1" = .ok s1 ∧
      registerInstitution s1 1 3 "Col" "w2" "e2" "dh" 77 = .ok s2 ∧
      s2.institutions 3 = { name := "Col", website := "w2", email := "e2", walletAddress := 3, verified := false, registrationDate := 77, credentialsIssued := 0, documentHash := "dh" } ∧
      s2.authorizedIssuers = regW.authorizedIssuers ∧
      s2.issuerList = regW.issuerList) :=
  ⟨⟨rfl, by decide, by decide, by decide⟩,
    reregister_after_name_wipe regW 1 1 3 "w1" "e1" "Col" "w2" "e2" "dh" 77
      rfl rfl (by decide) (by decide) (by decide)⟩

/-- C9: a successful issueCredential followed immediately (no revocation,
no deauthorization, verification time within the expiry window) by
verifyCredentialDetailed on the returned tokenId yields isValid = true,
exists = true, revoked = false, and issuer/recipient/type/institutionName
exactly as supplied at issuance. -/
theorem issue_then_verify_roundtrip (reg : RegistryState) (s : NFTState)
    (sender recipient : Nat) (ct iname : String) (expiry : Nat) (ipfs uri : String)
    (now : Nat) (reg2 : RegistryState) (s2 : NFTState) (tid : Nat)
    (vsender vnow : Nat) (v : VerifState)
    (h : issueCredential reg s sender recipient ct iname expiry ipfs uri now
      = .ok (reg2, s2, tid))
    (g : expiry = 0 ∨ vnow ≤ expiry) :
    (detailedResult s2 reg2 v vsender tid vnow).isValid = true ∧
    (detailedResult s2 reg2 v vsender tid vnow).exists_ = true ∧
    (detailedResult s2 reg2 v vsender tid vnow).revoked = false ∧
    (detailedResult s2 reg2 v vsender tid vnow).issuer = sender ∧
    (detailedResult s2 reg2 v vsender tid vnow).recipient = recipient ∧
    (detailedResult s2 reg2 v vsender tid vnow).credentialType = ct ∧
    (detailedResult s2 reg2 v vsender tid vnow).institutionName = iname := by
  obtain ⟨-, -, -, hauth, hcred, hown, -, hpre⟩ :=
    issueCredential_ok reg s sender recipient ct iname expiry ipfs uri now reg2 s2 tid h
  have how : s2.owners tid = some recipient := by
    rw [hown, updMap_same]
  have hcr : s2.credentials tid = { issuer := sender, recipient := recipient, credentialType := ct, institutionName := iname, issueDate := now, expiryDate := expiry, ipfsHash := ipfs, revoked := false } := by
    rw [hcred, updMap_same]
  have hvc := verifyCredential_some s2 tid vnow recipient how
  have hauth2 : isAuthorizedIssuer reg2 sender = true := by
    unfold isAuthorizedIssuer at hauth ⊢
    rw [hpre]
    exact hauth
  rcases g with g | g
  · simp [detailedResult, verifyCredentialDetailed, hvc, hcr, hauth2, g]
  · have hnl : ¬ expiry < vnow := Nat.not_lt.mpr g
    simp [detailedResult, verifyCredentialDetailed, hvc, hcr, hauth2, g, hnl]

/-- The ledger, registry and token id produced by a concrete successful
issuance, used by the C9 witness. -/
def issued9 : RegistryState × NFTState × Nat :=
  ((issueCredential regW initNFT 3 4 "Degree" "Uni" 0 "Qm" "u" 100).toOption).getD
    (initRegistry 0, initNFT, 0)

/-- C9 witness: issuer 3 of regW issues a non-expiring credential to 4 and
the detailed verification at a later time reports it valid and intact. -/
theorem issue_then_verify_roundtrip_witness :
    (issueCredential regW initNFT 3 4 "Degree" "Uni" 0 "Qm" "u" 100
      = .ok (issued9.1, issued9.2.1, issued9.2.2)) ∧
    ((0 : Nat) = 0 ∨ (150 : Nat) ≤ 0) ∧
    ((detailedResult issued9.2.1 issued9.1 initVerif 9 issued9.2.2 150).isValid = true ∧
      (detailedResult issued9.2.1 issued9.1 initVerif 9 issued9.2.2 150).exists_ = true ∧
      (detailedResult issued9.2.1 issued9.1 initVerif 9 issued9.2.2 150).revoked = false ∧
      (detailedResult issued9.2.1 issued9.1 initVerif 9 issued9.2.2 150).issuer = 3 ∧
      (detailedResult issued9.2.1 issued9.1 initVerif 9 issued9.2.2 150).recipient = 4 ∧
      (detailedResult issued9.2.1 issued9.1 initVerif 9 issued9.2.2 150).credentialType = "Degree" ∧
      (detailedResult issued9.2.1 issued9.1 initVerif 9 issued9.2.2 150).institutionName = "Uni") :=
  ⟨rfl, Or.inl rfl,
    issue_then_verify_roundtrip regW initNFT 3 4 "Degree" "Uni" 0 "Qm" "u" 100
      issued9.1 issued9.2.1 issued9.2.2 9 150 initVerif rfl (Or.inl rfl)⟩

/-- A successful verifyInstitution sets exactly addr in authorizedIssuers. -/
theorem verifyInstitution_ok (s : RegistryState) (sender addr : Nat) (r : RegistryState)
    (h : verifyInstitution s sender addr = .ok r) :
    r.authorizedIssuers = updMap s.authorizedIssuers addr true := by
  unfold verifyInstitution at h
  split_ifs at h
  cases h
  rfl

/-- A successful revokeInstitution clears exactly addr in authorizedIssuers. -/
theorem revokeInstitution_ok (s : RegistryState) (sender addr : Nat) (r : RegistryState)
    (h : revokeInstitution s sender addr = .ok r) :
    r.authorizedIssuers = updMap s.authorizedIssuers addr false := by
  unfold revokeInstitution at h
  split_ifs at h
  cases h
  rfl

/-- How one registry call changes authorizedIssuers at a given address:
exactly as its authorization event (if any) dictates. -/
theorem applyRegOp_auth (s : RegistryState) (a : Nat) (op : RegOp) :
    (applyRegOp s op).authorizedIssuers a =
      (regOpEvent s a op).getD (s.authorizedIssuers a) := by
  cases op with
  | register sender addr nm w e d now =>
    simp only [applyRegOp, regOpCall, regOpEvent, registerInstitution]
    split_ifs <;> rfl
  | verify sender addr =>
    cases hv : verifyInstitution s sender addr with
    | error e =>
      simp only [applyRegOp, regOpCall, regOpEvent]
      rw [hv]
      simp [exOk]
    | ok r =>
      have hr := verifyInstitution_ok s sender addr r hv
      simp only [applyRegOp, regOpCall, regOpEvent]
      rw [hv]
      by_cases he : addr = a
      · simp [exOk, hr, updMap_apply, he]
      · simp [exOk, hr, updMap_apply, he, Ne.symm he]
  | revoke sender addr =>
    cases hv : revokeInstitution s sender addr with
    | error e =>
      simp only [applyRegOp, regOpCall, regOpEvent]
      rw [hv]
      simp [exOk]
    | ok r =>
      have hr := revokeInstitution_ok s sender addr r hv
      simp only [applyRegOp, regOpCall, regOpEvent]
      rw [hv]
      by_cases he : addr = a
      · simp [exOk, hr, updMap_apply, he]
      · simp [exOk, hr, updMap_apply, he, Ne.symm he]
  | updateInfo sender addr nm w e =>
    simp only [applyRegOp, regOpCall, regOpEvent, updateInstitutionInfo]
    split_ifs <;> rfl
  | updateDocs sender addr d =>
    simp only [applyRegOp, regOpCall, regOpEvent, updateInstitutionDocuments]
    split_ifs <;> rfl
  | addAdm sender b =>
    simp only [applyRegOp, regOpCall, regOpEvent, addAdmin]
    split_ifs <;> rfl
  | removeAdm sender b =>
    simp only [applyRegOp, regOpCall, regOpEvent, removeAdmin]
    split_ifs <;> rfl
  | increment sender issuer =>
    simp only [applyRegOp, regOpCall, regOpEvent, incrementCredentialCount]
    split_ifs <;> rfl

/-- Along any trace, the final authorization flag of an address is the
last of its authorization events (with the starting flag as default). -/
theorem runRegOps_auth (a : Nat) :
    ∀ (ops : List RegOp) (s : RegistryState),
      (runRegOps s ops).authorizedIssuers a
        = (authEvents s a ops).getLastD (s.authorizedIssuers a)
  | [], _ => rfl
  | op :: ops, s => by
      have h1 := applyRegOp_auth s a op
      have ih := runRegOps_auth a ops (applyRegOp s op)
      have hrun : runRegOps s (op :: ops) = runRegOps (applyRegOp s op) ops := rfl
      have hev : authEvents s a (op :: ops)
          = (regOpEvent s a op).toList ++ authEvents (applyRegOp s op) a ops := rfl
      rw [hrun, ih, hev]
      cases he : regOpEvent s a op with
      | none =>
        rw [he] at h1
        simp only [Option.getD_none] at h1
        rw [Option.toList_none, List.nil_append, h1]
      | some b =>
        rw [he] at h1
        simp only [Option.getD_some] at h1
        rw [Option.toList_some, List.singleton_append, List.getLastD_cons, h1]

/-- For a list of Booleans, the last element (default false) is true
exactly when some true entry has no false entry after it. -/
theorem getLastD_false_eq_true_iff (l : List Bool) :
    l.getLastD false = true ↔ ∃ l1 l2, l = l1 ++ true :: l2 ∧ false ∉ l2 := by
  constructor
  · intro h
    rcases List.eq_nil_or_concat l with rfl | ⟨L, b, rfl⟩
    · simp at h
    · rw [List.concat_eq_append] at h ⊢
      simp [List.getLastD_concat] at h
      subst h
      exact ⟨L, [], rfl, by simp⟩
  · rintro ⟨l1, l2, rfl, hf⟩
    rcases List.eq_nil_or_concat l2 with rfl | ⟨L2, x, rfl⟩
    · simp [List.getLastD_concat]
    · rw [List.concat_eq_append] at hf ⊢
      have hx : x = true := by
        cases x
        · simp at hf
        · rfl
      subst hx
      have hsplit : l1 ++ true :: (L2 ++ [true]) = (l1 ++ true :: L2) ++ [true] := by
        simp
      rw [hsplit, List.getLastD_concat]

/-- C5: in every state reachable from a fresh registry by any sequence of
registry operations, isAuthorizedIssuer(a) is true exactly when some
verifyInstitution(a) call succeeded (a true entry of the event trace) and
no revokeInstitution(a) call succeeded after it (no false entry after). -/
theorem isAuthorizedIssuer_trace_iff (deployer a : Nat) (ops : List RegOp) :
    isAuthorizedIssuer (runRegOps (initRegistry deployer) ops) a = true ↔
      ∃ l1 l2, authEvents (initRegistry deployer) a ops = l1 ++ true :: l2 ∧
        false ∉ l2 := by
  have h := runRegOps_auth a ops (initRegistry deployer)
  unfold isAuthorizedIssuer
  rw [h]
  exact getLastD_false_eq_true_iff _

/-- The environment of the off-chain counterexamples: chain state regW,
server wallet 1 (an admin), and polling that observes nothing before the
deadline for both transactions. -/
def envW : RegisterEnv :=
  { registry := regW, serverWallet := 1, orgWebsite := "", chainNow := 7,
    regTxHash := "0xreg", regPolls := [], verTxHash := "0xver", verPolls := [] }

/-- An institution user whose wallet 3 is already authorized in regW. -/
def userW : BlockchainUser :=
  { userType := "institution", walletAddress := 3, name := "Uni", email := "e" }

/-- An institution user whose wallet 4 is not yet registered in regW. -/
def userB3 : BlockchainUser :=
  { userType := "institution", walletAddress := 4, name := "Col", email := "e" }

/-- C4 counterexample: for a caller already in the target end-state
(wallet 3 is an authorized issuer), the workflow does skip every
state-mutating submission, but it responds with HTTP 400 and an error
body — not with a success response as the claim states. -/
theorem already_authorized_short_circuit_cex :
    isAuthorizedIssuer envW.registry userW.walletAddress = true ∧
    (registerUserOnBlockchain envW userW).success = false ∧
    (registerUserOnBlockchain envW userW).httpStatus = 400 ∧
    (registerUserOnBlockchain envW userW).error
      = some "User is already registered and verified on blockchain" ∧
    (registerUserOnBlockchain envW userW).regSubmitted = false ∧
    (registerUserOnBlockchain envW userW).verSubmitted = false :=
  ⟨rfl, rfl, rfl, rfl, rfl, rfl⟩

/-- C4 amended: for every caller of an allowed user type whose address is
already an authorized issuer on-chain, the workflow short-circuits and
performs no state-mutating submission, responding with the 400
already-registered error (an error response, not a success response). -/
theorem already_authorized_short_circuit (env : RegisterEnv) (user : BlockchainUser)
    (h : user.userType = "institution" ∨ user.userType = "company" ∨
      user.userType = "verifier")
    (g : isAuthorizedIssuer env.registry user.walletAddress = true) :
    registerUserOnBlockchain env user =
      errorResponse 400 "User is already registered and verified on blockchain"
        none false false := by
  unfold registerUserOnBlockchain
  rw [if_neg (not_not_intro h), if_pos g]

/-- C4 amended witness: the concrete already-authorized wallet 3. -/
theorem already_authorized_short_circuit_witness :
    registerUserOnBlockchain envW userW =
      errorResponse 400 "User is already registered and verified on blockchain"
        none false false :=
  already_authorized_short_circuit envW userW (Or.inl rfl) rfl

/-- C3 counterexample: a registration workflow whose submitted
registration transaction never reaches the confirmation depth before the
60-second deadline does NOT return a pending/partial-success response: it
throws and the catch turns it into a hard 500 error with no pending status
and no local pending record. -/
theorem registration_timeout_hard_fail_cex :
    waitForTransactionWithTimeout 2 60000 envW.regPolls = none ∧
    (registerUserOnBlockchain envW userB3).httpStatus = 500 ∧
    (registerUserOnBlockchain envW userB3).success = false ∧
    (registerUserOnBlockchain envW userB3).regSubmitted = true ∧
    (registerUserOnBlockchain envW userB3).status = none ∧
    (registerUserOnBlockchain envW userB3).dbVerificationStatus = none ∧
    (registerUserOnBlockchain envW userB3).error
      = some "Failed to register on blockchain" :=
  ⟨rfl, rfl, rfl, rfl, rfl, rfl, rfl⟩

/-- C3 amended: only the verification transaction gets the graceful
treatment. If the verification submission does not confirm before the
deadline (whether the institution was already registered, or was freshly
registered by a confirmed registration transaction), the workflow returns
the HTTP 200 partial-success response with status verification_pending,
carries the verification transaction hash, and persists the local pending
status; but if the registration transaction does not confirm before the
deadline, the workflow throws and answers with a hard 500 error response
instead of a pending one. -/
theorem verification_timeout_partial_success (env : RegisterEnv) (user : BlockchainUser)
    (h : user.userType = "institution" ∨ user.userType = "company" ∨
      user.userType = "verifier")
    (g : isAuthorizedIssuer env.registry user.walletAddress = false) :
    ((env.registry.institutions user.walletAddress).name ≠ "" →
      ∀ r2, verifyInstitution env.registry env.serverWallet user.walletAddress = .ok r2 →
      waitForTransactionWithTimeout 2 60000 env.verPolls = none →
      registerUserOnBlockchain env user =
        { httpStatus := 200, success := true, error := none, details := none,
          status := some "verification_pending", registrationTx := none,
          verificationTx := some { hash := env.verTxHash, blockNumber := none },
          dbVerificationStatus := some "pending", regSubmitted := false,
          verSubmitted := true }) ∧
    ((env.registry.institutions user.walletAddress).name = "" →
      ∀ reg1, registerInstitution env.registry env.serverWallet user.walletAddress
          user.name env.orgWebsite user.email "" env.chainNow = .ok reg1 →
      ∀ rcpt, waitForTransactionWithTimeout 2 60000 env.regPolls = some rcpt →
      ∀ r2, verifyInstitution reg1 env.serverWallet user.walletAddress = .ok r2 →
      waitForTransactionWithTimeout 2 60000 env.verPolls = none →
      registerUserOnBlockchain env user =
        { httpStatus := 200, success := true, error := none, details := none,
          status := some "verification_pending",
          registrationTx := some { hash := env.regTxHash, blockNumber := some rcpt.blockNumber },
          verificationTx := some { hash := env.verTxHash, blockNumber := none },
          dbVerificationStatus := some "pending", regSubmitted := true,
          verSubmitted := true }) ∧
    ((env.registry.institutions user.walletAddress).name = "" →
      ∀ reg1, registerInstitution env.registry env.serverWallet user.walletAddress
          user.name env.orgWebsite user.email "" env.chainNow = .ok reg1 →
      waitForTransactionWithTimeout 2 60000 env.regPolls = none →
      registerUserOnBlockchain env user =
        errorResponse 500 "Failed to register on blockchain"
          (some "Registration transaction timed out - please check transaction status manually")
          true false) := by
  refine ⟨?_, ?_, ?_⟩
  · intro hreg r2 hver hwait
    unfold registerUserOnBlockchain
    rw [if_neg (not_not_intro h), if_neg (by simp [g]), if_pos hreg]
    unfold verificationStep
    rw [hver, hwait]
    rfl
  · intro hreg reg1 hregister rcpt hrwait r2 hver hwait
    unfold registerUserOnBlockchain
    rw [if_neg (not_not_intro h), if_neg (by simp [g]), if_neg (not_not_intro hreg),
      hregister, hrwait]
    show verificationStep env user reg1 (some env.regTxHash) (some rcpt) = _
    unfold verificationStep
    rw [hver, hwait]
    rfl
  · intro hreg reg1 hregister hrwait
    unfold registerUserOnBlockchain
    rw [if_neg (not_not_intro h), if_neg (by simp [g]), if_neg (not_not_intro hreg),
      hregister, hrwait]

/-- The environment of the C3 witness: same as envW but the registration
transaction confirms at depth 2 while the verification polls see nothing. -/
def envP : RegisterEnv :=
  { registry := regW, serverWallet := 1, orgWebsite := "", chainNow := 7,
    regTxHash := "0xreg",
    regPolls := [{ receipt := some { blockNumber := 10, gasUsed := 1 }, currentBlock := 12 }],
    verTxHash := "0xver", verPolls := [] }

/-- The registry state after the witness registration confirmed. -/
def reg1P : RegistryState :=
  (registerInstitution envP.registry envP.serverWallet userB3.walletAddress
    userB3.name envP.orgWebsite userB3.email "" envP.chainNow).toOption.getD (initRegistry 0)

/-- The registry state after the witness verification call. -/
def reg2P : RegistryState :=
  (verifyInstitution reg1P envP.serverWallet userB3.walletAddress).toOption.getD
    (initRegistry 0)

/-- C3 amended witness: wallet 4 registers (confirmed) and the
verification transaction times out, producing the concrete pending
partial-success response. -/
theorem verification_timeout_partial_success_witness :
    registerUserOnBlockchain envP userB3 =
      { httpStatus := 200, success := true, error := none, details := none,
        status := some "verification_pending",
        registrationTx := some { hash := "0xreg", blockNumber := some 10 },
        verificationTx := some { hash := "0xver", blockNumber := none },
        dbVerificationStatus := some "pending", regSubmitted := true,
        verSubmitted := true } :=
  (verification_timeout_partial_success envP userB3 (Or.inl rfl) rfl).2.1 rfl
    reg1P rfl { blockNumber := 10, gasUsed := 1 } rfl reg2P rfl rfl

/-- A concrete registry trace: admin 1 registers institution 3, then
verifies it. -/
def ops5 : List RegOp :=
  [RegOp.register 1 3 "Uni" "w" "e" "d" 5, RegOp.verify 1 3]

/-- C5 witness: along the concrete trace ops5, address 3 ends authorized,
via the event decomposition with the successful verify and nothing after. -/
theorem isAuthorizedIssuer_trace_iff_witness :
    isAuthorizedIssuer (runRegOps (initRegistry 1) ops5) 3 = true :=
  (isAuthorizedIssuer_trace_iff 1 3 ops5).mpr ⟨[], [], rfl, by simp⟩

/-- The ledger after issuer 3 revokes the minted credential 0 of nft6. -/
def revoked6 : NFTState :=
  (revokeCredential nft6 3 0).toOption.getD initNFT

/-- C7 witness: the concrete successful revocation of credential 0 by its
issuer 3, with the irreversibility conclusion attached. -/
theorem revokeCredential_spec_witness :
    nft6.owners 0 ≠ none ∧ (nft6.credentials 0).issuer = 3 ∧
    (nft6.credentials 0).revoked = false ∧
    (revoked6.credentials 0).revoked = true ∧
    (∀ reg ops, ((runNFTOps (reg, revoked6) ops).2.credentials 0).revoked = true) :=
  (revokeCredential_spec nft6 3 0).2.2.2 revoked6 rfl

/-- C8 witness: the authorized issuer 3 of regW has its counter bumped by
a call whose msg.sender is the unprivileged address 5. -/
theorem incrementCredentialCount_spec_witness :
    ∃ s', incrementCredentialCount regW 5 3 = .ok s' ∧
      (s'.institutions 3).credentialsIssued
        = (regW.institutions 3).credentialsIssued + 1 ∧
      s'.authorizedIssuers = regW.authorizedIssuers ∧
      (∀ a, a ≠ 3 → s'.institutions a = regW.institutions a) :=
  (incrementCredentialCount_spec regW 5 3).2 rfl

end Credora
